import Mathlib

/-!
# Feishu_Enhancer frontend — shallow embedding and verification

This file embeds the presentation-layer logic of the Feishu_Enhancer
frontend (an axios HTTP client module, the Tasks page, the Business
Knowledge page and the Reasoning Knowledge page) and proves properties
of the embedded definitions.

Modelling conventions:
  * JavaScript strings are modelled as Lean `String`; `length`,
    `substring` and `trim` are modelled on Unicode characters rather
    than UTF-16 code units (the two agree on all BMP text, which is the
    only text the claims exercise).
  * JavaScript numbers are modelled as `ℚ`; similarity scores and the
    arithmetic of `toFixed` are exact here, and agree with IEEE doubles
    at every input appearing in a theorem below.
  * `null` and `undefined` are both modelled as `Option.none` for the
    record fields, because every consumer in this code base tests
    `x === null || x === undefined` or uses falsiness, treating the two
    identically.  For the error object, `error.response?.data?.detail`
    is `Option String` (`none` when there is no response body or no
    detail field).
  * React handlers are embedded as pure functions from the page state
    and the outcome of the awaited backend call to the new page state
    and a trace of observable effects (requests issued, antd messages
    shown, list re-fetches scheduled).  `Effect.refetch d` records that
    the page's list-fetch function was scheduled to run after `d`
    milliseconds; a direct synchronous call is `refetch 0`, and
    `setTimeout(fetch, 1000)` is `refetch 1000`.
-/

/-- A JSON value, as produced by `JSON.parse`.  Numbers are exact
rationals (the literal's mathematical value). -/
inductive JsonVal where
  | null : JsonVal
  | bool : Bool → JsonVal
  | num : ℚ → JsonVal
  | str : String → JsonVal
  | arr : List JsonVal → JsonVal
  | obj : List (String × JsonVal) → JsonVal

/-- JSON whitespace (`%x20 / %x09 / %x0A / %x0D`) before a token. -/
def skipWs : List Char → List Char
  | [] => []
  | c :: cs => if c = ' ' ∨ c = '\t' ∨ c = '\n' ∨ c = '\x0d' then skipWs cs else c :: cs

/-- Value of a hexadecimal digit, for `\uXXXX` escapes. -/
def hexVal (c : Char) : Option Nat :=
  if c.isDigit then some (c.toNat - 48)
  else if 'a' ≤ c ∧ c ≤ 'f' then some (c.toNat - 87)
  else if 'A' ≤ c ∧ c ≤ 'F' then some (c.toNat - 55)
  else none

/-- Body of a JSON string after the opening quote: collects characters
until the closing quote, processing the escape sequences of RFC 8259.
(A `\uXXXX` escape becomes the code point `XXXX`; surrogate pairs are
not recombined, which no input in this development exercises.) -/
def parseStringBody (acc : List Char) : List Char → Option (String × List Char)
  | [] => none
  | c :: cs =>
    if c = '"' then some (String.mk acc.reverse, cs)
    else if c = '\\' then
      match cs with
      | [] => none
      | e :: cs2 =>
        if e = '"' then parseStringBody ('"' :: acc) cs2
        else if e = '\\' then parseStringBody ('\\' :: acc) cs2
        else if e = '/' then parseStringBody ('/' :: acc) cs2
        else if e = 'b' then parseStringBody ('\x08' :: acc) cs2
        else if e = 'f' then parseStringBody ('\x0c' :: acc) cs2
        else if e = 'n' then parseStringBody ('\n' :: acc) cs2
        else if e = 'r' then parseStringBody ('\x0d' :: acc) cs2
        else if e = 't' then parseStringBody ('\t' :: acc) cs2
        else if e = 'u' then
          match cs2 with
          | h1 :: h2 :: h3 :: h4 :: cs3 =>
            match hexVal h1, hexVal h2, hexVal h3, hexVal h4 with
            | some a, some b, some c2, some d =>
              parseStringBody (Char.ofNat (a * 4096 + b * 256 + c2 * 16 + d) :: acc) cs3
            | _, _, _, _ => none
          | _ => none
        else none
    else if c.toNat < 32 then none
    else parseStringBody (c :: acc) cs

/-- Longest prefix of decimal digits, and the remainder. -/
def takeDigits : List Char → List Char × List Char
  | [] => ([], [])
  | c :: cs =>
    if c.isDigit then
      let (ds, rest) := takeDigits cs
      (c :: ds, rest)
    else ([], c :: cs)

/-- Numeric value of a digit list. -/
def digitsVal (ds : List Char) : Nat :=
  ds.foldl (fun a c => a * 10 + (c.toNat - 48)) 0

/-- A JSON number token (`-?int frac? exp?`, with the RFC's restriction
that the integer part is `0` or starts with a nonzero digit — a leading
`0` followed by more digits leaves the extra digits unconsumed, which
the caller then rejects as trailing garbage, exactly as `JSON.parse`
does). -/
def parseNum (cs : List Char) : Option (JsonVal × List Char) :=
  let (neg, cs1) := match cs with
    | '-' :: rest => (true, rest)
    | _ => (false, cs)
  match cs1 with
  | [] => none
  | c :: rest =>
    if c.isDigit then
      let (intDs, afterInt) := if c = '0' then (['0'], rest) else takeDigits cs1
      let fracStep : Option (List Char × List Char) :=
        match afterInt with
        | '.' :: r2 =>
          let (ds, r3) := takeDigits r2
          if ds.isEmpty then none else some (ds, r3)
        | _ => some ([], afterInt)
      match fracStep with
      | none => none
      | some (fracDs, afterFrac) =>
        let expStep : Option (Bool × List Char × List Char) :=
          match afterFrac with
          | e :: r4 =>
            if e = 'e' ∨ e = 'E' then
              let (esign, r5) := match r4 with
                | '+' :: r => (false, r)
                | '-' :: r => (true, r)
                | _ => (false, r4)
              let (eds, r6) := takeDigits r5
              if eds.isEmpty then none else some (esign, eds, r6)
            else some (false, [], afterFrac)
          | [] => some (false, [], [])
        match expStep with
        | none => none
        | some (esign, eds, restFinal) =>
          let mant : ℚ :=
            (digitsVal intDs : ℚ) + (digitsVal fracDs : ℚ) / ((10 : ℚ) ^ fracDs.length)
          let expo : ℤ := if esign then -(digitsVal eds : ℤ) else (digitsVal eds : ℤ)
          some (.num ((if neg then -mant else mant) * (10 : ℚ) ^ expo), restFinal)
    else none

mutual

/-- One JSON value, by recursion on a fuel bound.  The fuel strictly
decreases on every nested value, and every nested value consumes at
least one input character, so any fuel exceeding the input length
behaves exactly as the unbounded `JSON.parse` recursion. -/
def parseVal : Nat → List Char → Option (JsonVal × List Char)
  | 0, _ => none
  | Nat.succ fuel, cs =>
    match skipWs cs with
    | 'n' :: 'u' :: 'l' :: 'l' :: rest => some (.null, rest)
    | 't' :: 'r' :: 'u' :: 'e' :: rest => some (.bool true, rest)
    | 'f' :: 'a' :: 'l' :: 's' :: 'e' :: rest => some (.bool false, rest)
    | '"' :: rest =>
      match parseStringBody [] rest with
      | some (s, rest2) => some (.str s, rest2)
      | none => none
    | '[' :: rest =>
      (match skipWs rest with
       | ']' :: rest2 => some (.arr [], rest2)
       | cs2 =>
         match parseElems fuel cs2 with
         | some (xs, rest3) => some (.arr xs, rest3)
         | none => none)
    | '{' :: rest =>
      (match skipWs rest with
       | '}' :: rest2 => some (.obj [], rest2)
       | cs2 =>
         match parseMembers fuel cs2 with
         | some (kvs, rest3) => some (.obj kvs, rest3)
         | none => none)
    | cs2 => parseNum cs2

/-- The comma-separated elements of a nonempty JSON array, up to and
including the closing bracket. -/
def parseElems : Nat → List Char → Option (List JsonVal × List Char)
  | 0, _ => none
  | Nat.succ fuel, cs =>
    match parseVal fuel cs with
    | none => none
    | some (v, rest) =>
      match skipWs rest with
      | ',' :: rest2 =>
        (match parseElems fuel rest2 with
         | some (xs, rest3) => some (v :: xs, rest3)
         | none => none)
      | ']' :: rest2 => some ([v], rest2)
      | _ => none

/-- The comma-separated members of a nonempty JSON object, up to and
including the closing brace. -/
def parseMembers : Nat → List Char → Option (List (String × JsonVal) × List Char)
  | 0, _ => none
  | Nat.succ fuel, cs =>
    match skipWs cs with
    | '"' :: rest =>
      (match parseStringBody [] rest with
       | none => none
       | some (k, rest2) =>
         match skipWs rest2 with
         | ':' :: rest3 =>
           (match parseVal fuel rest3 with
            | none => none
            | some (v, rest4) =>
              match skipWs rest4 with
              | ',' :: rest5 =>
                (match parseMembers fuel rest5 with
                 | some (kvs, rest6) => some ((k, v) :: kvs, rest6)
                 | none => none)
              | '}' :: rest5 => some ([(k, v)], rest5)
              | _ => none)
         | _ => none)
    | _ => none

end

/-- `JSON.parse`: one complete JSON value with nothing but whitespace
after it; anything else throws, modelled as `none`. -/
def jsonParse (s : String) : Option JsonVal :=
  match parseVal (2 * s.length + 2) s.toList with
  | some (v, rest) => if (skipWs rest).isEmpty then some v else none
  | none => none

/-- Sanity check of the parser model on a literal input. -/
theorem jsonParse_null_literal : jsonParse "null" = some .null := rfl

/-- Trailing garbage after a complete value is rejected. -/
theorem jsonParse_trailing_garbage : jsonParse "nullx" = none := rfl

/-- Surrounding whitespace is accepted. -/
theorem jsonParse_ws_literal : jsonParse " true " = some (.bool true) := rfl

/-- A one-member object input. -/
theorem jsonParse_object_literal :
    jsonParse "\x7b\"summary\": \"ok\"\x7d" = some (.obj [("summary", .str "ok")]) := rfl

/-- Plain prose is not JSON. -/
theorem jsonParse_prose : jsonParse "hello" = none := rfl

/-- A string literal input. -/
theorem jsonParse_string_literal : jsonParse "\"hi\"" = some (.str "hi") := rfl

/-! ## The shared HTTP client and the three feature API modules
(`src/.../services/api.ts`, recovered as `src/unnamed/part_000`). -/

/-- The configuration axios attaches to every request made through an
instance created with `axios.create`. -/
structure ClientConfig where
  baseURL : String
  timeout : Nat

/-- `const api = axios.create({ baseURL: '/api', timeout: 30000 })` —
the single shared client instance. -/
def api : ClientConfig := { baseURL := "/api", timeout := 30000 }

inductive HttpMethod where
  | get | post | put | delete

/-- A request as constructed by the axios instance: it carries the
instance's configuration, the method, the path relative to the base
path, the JSON body (for post/put) and the query parameters. -/
structure ApiRequest where
  config : ClientConfig
  method : HttpMethod
  url : String
  body : List (String × JsonVal)
  params : List (String × JsonVal)

/-- `api.get(url, { params })`. -/
def apiGet (url : String) (ps : List (String × JsonVal)) : ApiRequest :=
  { config := api, method := .get, url := url, body := [], params := ps }

/-- `api.post(url, body)`. -/
def apiPost (url : String) (b : List (String × JsonVal)) : ApiRequest :=
  { config := api, method := .post, url := url, body := b, params := [] }

/-- `api.put(url, body)`. -/
def apiPut (url : String) (b : List (String × JsonVal)) : ApiRequest :=
  { config := api, method := .put, url := url, body := b, params := [] }

/-- `api.delete(url)`. -/
def apiDelete (url : String) : ApiRequest :=
  { config := api, method := .delete, url := url, body := [], params := [] }

/-- An optional JSON body field: `JSON.stringify` drops a key whose
value is `undefined`, so an absent optional field does not appear. -/
def optStrField (k : String) : Option String → List (String × JsonVal)
  | some s => [(k, .str s)]
  | none => []

namespace taskApi

/-- `api.post('/tasks/run', { task, task_id: taskId })`; an `undefined`
`taskId` is dropped from the serialized body. -/
def runTask (task : String) (taskId : Option Int) : ApiRequest :=
  apiPost "/tasks/run"
    ([("task", .str task)] ++ (match taskId with
      | some i => [("task_id", .num i)]
      | none => []))

def getTask (taskId : Int) : ApiRequest :=
  apiGet ("/tasks/" ++ toString taskId) []

def getTasks (skip : Int) (limit : Int) : ApiRequest :=
  apiGet "/tasks" [("skip", .num skip), ("limit", .num limit)]

def deleteTask (taskId : Int) : ApiRequest :=
  apiDelete ("/tasks/" ++ toString taskId)

end taskApi

/-- Create payload for a business-knowledge entry. -/
structure BKCreate where
  question_text : String
  answer_text : String

/-- Update payload for a business-knowledge entry (both fields
optional in the TypeScript signature). -/
structure BKUpdate where
  question_text : Option String
  answer_text : Option String

namespace businessKnowledgeApi

def create (data : BKCreate) : ApiRequest :=
  apiPost "/business-knowledge"
    [("question_text", .str data.question_text), ("answer_text", .str data.answer_text)]

def get (id : Int) : ApiRequest :=
  apiGet ("/business-knowledge/" ++ toString id) []

def list (skip : Int) (limit : Int) : ApiRequest :=
  apiGet "/business-knowledge" [("skip", .num skip), ("limit", .num limit)]

def update (id : Int) (data : BKUpdate) : ApiRequest :=
  apiPut ("/business-knowledge/" ++ toString id)
    (optStrField "question_text" data.question_text ++ optStrField "answer_text" data.answer_text)

def delete (id : Int) : ApiRequest :=
  apiDelete ("/business-knowledge/" ++ toString id)

def searchByQuestion (query : String) (topK : ℚ) (threshold : ℚ) : ApiRequest :=
  apiPost "/business-knowledge/search/question"
    [("query_text", .str query), ("top_k", .num topK), ("threshold", .num threshold)]

def searchByAnswer (query : String) (topK : ℚ) (threshold : ℚ) : ApiRequest :=
  apiPost "/business-knowledge/search/answer"
    [("query_text", .str query), ("top_k", .num topK), ("threshold", .num threshold)]

def count : ApiRequest :=
  apiGet "/business-knowledge/count" []

end businessKnowledgeApi

/-- Create payload for a reasoning-knowledge entry. -/
structure RKCreate where
  task_text : String
  step_text : String

/-- Update payload for a reasoning-knowledge entry. -/
structure RKUpdate where
  task_text : Option String
  step_text : Option String

namespace reasoningKnowledgeApi

def create (data : RKCreate) : ApiRequest :=
  apiPost "/reasoning-knowledge"
    [("task_text", .str data.task_text), ("step_text", .str data.step_text)]

def get (id : Int) : ApiRequest :=
  apiGet ("/reasoning-knowledge/" ++ toString id) []

def list (skip : Int) (limit : Int) : ApiRequest :=
  apiGet "/reasoning-knowledge" [("skip", .num skip), ("limit", .num limit)]

def update (id : Int) (data : RKUpdate) : ApiRequest :=
  apiPut ("/reasoning-knowledge/" ++ toString id)
    (optStrField "task_text" data.task_text ++ optStrField "step_text" data.step_text)

def delete (id : Int) : ApiRequest :=
  apiDelete ("/reasoning-knowledge/" ++ toString id)

def searchByTask (query : String) (topK : ℚ) (threshold : ℚ) : ApiRequest :=
  apiPost "/reasoning-knowledge/search/task"
    [("query_text", .str query), ("top_k", .num topK), ("threshold", .num threshold)]

def searchByStep (query : String) (topK : ℚ) (threshold : ℚ) : ApiRequest :=
  apiPost "/reasoning-knowledge/search/step"
    [("query_text", .str query), ("top_k", .num topK), ("threshold", .num threshold)]

def count : ApiRequest :=
  apiGet "/reasoning-knowledge/count" []

end reasoningKnowledgeApi

/-! ## Records, errors, and the effect trace of a handler -/

namespace TasksPage

/-- The `Task` record rendered by the Tasks page.  Optional fields are
`none` when the backend sends `null` or omits them (`undefined`); every
consumer in the page treats the two identically. -/
structure Task where
  id : Int
  original_task : String
  enhanced_task : Option String
  can_execute : Option Bool
  execution_reason : Option String
  steps : Option String
  step_results : Option JsonVal
  final_result : Option String
  all_success : Option Bool

end TasksPage

/-- A `BusinessKnowledge` record; `similarity` is present only in
search results. -/
structure BusinessKnowledge where
  id : Int
  question_text : String
  answer_text : String
  created_at : Option String
  updated_at : Option String
  similarity : Option ℚ

/-- A `ReasoningKnowledge` record. -/
structure ReasoningKnowledge where
  id : Int
  task_text : String
  step_text : String
  created_at : Option String
  updated_at : Option String
  similarity : Option ℚ

/-- A caught axios error, as consumed by the handlers: `detail` models
`error.response?.data?.detail` (`none` when there is no response body
or no detail field) and `message` models `error.message`. -/
structure ApiError where
  detail : Option String
  message : String

/-- `error.response?.data?.detail || error.message`: JavaScript `||`
falls through on every falsy value, so an absent detail *and* a
present-but-empty detail string both yield `error.message`. -/
def errorDetailOrMessage (e : ApiError) : String :=
  match e.detail with
  | some d => if d = "" then e.message else d
  | none => e.message

/-- Outcome of one awaited backend call. -/
inductive ApiResult (α : Type) where
  | ok (data : α)
  | err (e : ApiError)

/-- Observable effects of a handler, in program order: a request issued
through the client, an antd message, or a scheduled re-fetch of the
page's list (`refetch d` = the list-fetch function scheduled to run
after `d` ms; a direct call is `refetch 0`, `setTimeout(fetch, 1000)`
is `refetch 1000`). -/
inductive Effect where
  | request (r : ApiRequest)
  | msgSuccess (s : String)
  | msgError (s : String)
  | msgWarning (s : String)
  | refetch (delayMs : Nat)

/-- The requests contained in an effect trace. -/
def requestsOf (es : List Effect) : List ApiRequest :=
  es.filterMap (fun e => match e with
    | .request r => some r
    | _ => none)

/-- The delays of the scheduled list re-fetches in an effect trace. -/
def refetchesOf (es : List Effect) : List Nat :=
  es.filterMap (fun e => match e with
    | .refetch d => some d
    | _ => none)

/-- `String.prototype.trim`: strips leading and trailing whitespace
(modelled on `Char.isWhitespace`, which agrees with the JavaScript
white-space set on all text this code sees). -/
def jsTrim (s : String) : String :=
  String.mk (((s.toList.dropWhile Char.isWhitespace).reverse.dropWhile
    Char.isWhitespace).reverse)

/-- JavaScript `v || d` on an optional number: `undefined`, `null` and
`0` are falsy and fall through to the default. -/
def jsOrNum (v : Option ℚ) (d : ℚ) : ℚ :=
  match v with
  | some x => if x = 0 then d else x
  | none => d

/-! ## TasksPage (`src/Version - Final/frontend/src/pages/TasksPage.tsx`)

Each handler is embedded as a pure function of the relevant page state
and the outcome of the awaited call, returning the new page state and
the trace of effects, following the source's control flow statement by
statement. -/

namespace TasksPage

/-- The `useState` cells of `TasksPage`. -/
structure TasksState where
  tasks : List Task
  loading : Bool
  modalVisible : Bool
  detailModalVisible : Bool
  selectedTask : Option Task
  taskInput : String

/-- `fetchTasks`: set `loading`, call `taskApi.getTasks(0, 100)`; on
success store the data, on failure show the error message; `finally`
clear `loading`. -/
def fetchTasks (s : TasksState) (r : ApiResult (List Task)) : TasksState × List Effect :=
  let s1 := { s with loading := true }
  match r with
  | .ok data =>
    ({ s1 with tasks := data, loading := false }, [.request (taskApi.getTasks 0 100)])
  | .err e =>
    ({ s1 with loading := false },
     [.request (taskApi.getTasks 0 100),
      .msgError ("获取任务列表失败: " ++ errorDetailOrMessage e)])

/-- `handleRunTask`: an input whose trimmed form is empty shows a
warning and returns before anything else; otherwise run the task with
the trimmed text, and on success show the assigned id, close the
modal, clear the input and schedule a re-fetch after 1000 ms. -/
def handleRunTask (s : TasksState) (r : ApiResult Int) : TasksState × List Effect :=
  if jsTrim s.taskInput = "" then
    (s, [.msgWarning "请输入任务描述"])
  else
    match r with
    | .ok taskId =>
      ({ s with modalVisible := false, taskInput := "" },
       [.request (taskApi.runTask (jsTrim s.taskInput) none),
        .msgSuccess ("任务已添加到执行队列，ID: " ++ toString taskId),
        .refetch 1000])
    | .err e =>
      (s, [.request (taskApi.runTask (jsTrim s.taskInput) none),
           .msgError ("启动任务失败: " ++ errorDetailOrMessage e)])

/-- `handleViewDetail`. -/
def handleViewDetail (s : TasksState) (taskId : Int) (r : ApiResult Task) :
    TasksState × List Effect :=
  match r with
  | .ok data =>
    ({ s with selectedTask := some data, detailModalVisible := true },
     [.request (taskApi.getTask taskId)])
  | .err e =>
    (s, [.request (taskApi.getTask taskId),
         .msgError ("获取任务详情失败: " ++ errorDetailOrMessage e)])

/-- The `onOk` body of the tasks page's `handleDelete` confirmation
dialog (run only after the operator confirms). -/
def tasksHandleDelete (taskId : Int) (r : ApiResult Unit) : List Effect :=
  match r with
  | .ok _ =>
    [.request (taskApi.deleteTask taskId), .msgSuccess "删除成功", .refetch 0]
  | .err e =>
    [.request (taskApi.deleteTask taskId),
     .msgError ("删除失败: " ++ errorDetailOrMessage e)]

end TasksPage

/-! ## BusinessKnowledgePage
(`src/Version - Final/frontend/src/pages/BusinessKnowledgePage.tsx`) -/

namespace BusinessKnowledgePage

/-- Which search button was pressed (`handleSearch('question' | 'answer')`). -/
inductive SearchAxis where
  | question | answer

/-- The validated values of the search form; `top_k` and `threshold`
are optional numbers (the operator can clear the inputs). -/
structure SearchValues where
  query_text : String
  top_k : Option ℚ
  threshold : Option ℚ

/-- The `useState` cells of `BusinessKnowledgePage` (antd form
internals are not state cells; validated form values enter the
handlers as arguments, `none` meaning validation failed). -/
structure BKState where
  knowledgeList : List BusinessKnowledge
  loading : Bool
  modalVisible : Bool
  editingItem : Option BusinessKnowledge
  searchResults : List BusinessKnowledge
  searchLoading : Bool

/-- `fetchKnowledge`. -/
def fetchKnowledge (s : BKState) (r : ApiResult (List BusinessKnowledge)) :
    BKState × List Effect :=
  let s1 := { s with loading := true }
  match r with
  | .ok data =>
    ({ s1 with knowledgeList := data, loading := false },
     [.request (businessKnowledgeApi.list 0 100)])
  | .err e =>
    ({ s1 with loading := false },
     [.request (businessKnowledgeApi.list 0 100),
      .msgError ("获取知识列表失败: " ++ errorDetailOrMessage e)])

/-- `handleSubmit`: validate the form (a validation failure is caught,
recognized by `error.errorFields`, and returns silently); update when
`editingItem` is set, create otherwise; on success close the modal and
re-fetch the list. -/
def handleSubmit (s : BKState) (vals : Option BKCreate) (r : ApiResult Unit) :
    BKState × List Effect :=
  match vals with
  | none => (s, [])
  | some values =>
    let req := match s.editingItem with
      | some item =>
        businessKnowledgeApi.update item.id
          { question_text := some values.question_text,
            answer_text := some values.answer_text }
      | none => businessKnowledgeApi.create values
    match r with
    | .ok _ =>
      ({ s with modalVisible := false },
       [.request req,
        .msgSuccess (match s.editingItem with
          | some _ => "更新成功"
          | none => "创建成功"),
        .refetch 0])
    | .err e =>
      (s, [.request req, .msgError ("操作失败: " ++ errorDetailOrMessage e)])

/-- `handleDelete` (inside the `Popconfirm`'s `onConfirm`, so it runs
only after the operator confirms). -/
def handleDelete (id : Int) (r : ApiResult Unit) : List Effect :=
  match r with
  | .ok _ =>
    [.request (businessKnowledgeApi.delete id), .msgSuccess "删除成功", .refetch 0]
  | .err e =>
    [.request (businessKnowledgeApi.delete id),
     .msgError ("删除失败: " ++ errorDetailOrMessage e)]

/-- `handleSearch`: validate the search form (failure returns silently,
but the `finally` still clears `searchLoading`); dispatch on the axis
with `values.top_k || 5` and `values.threshold || 0.0`; store the
results; `finally` clear `searchLoading`. -/
def handleSearch (s : BKState) (axis : SearchAxis) (vals : Option SearchValues)
    (r : ApiResult (List BusinessKnowledge)) : BKState × List Effect :=
  match vals with
  | none => ({ s with searchLoading := false }, [])
  | some v =>
    let s1 := { s with searchLoading := true }
    let req := match axis with
      | .question =>
        businessKnowledgeApi.searchByQuestion v.query_text
          (jsOrNum v.top_k 5) (jsOrNum v.threshold 0)
      | .answer =>
        businessKnowledgeApi.searchByAnswer v.query_text
          (jsOrNum v.top_k 5) (jsOrNum v.threshold 0)
    match r with
    | .ok data =>
      ({ s1 with searchResults := data, searchLoading := false }, [.request req])
    | .err e =>
      ({ s1 with searchLoading := false },
       [.request req, .msgError ("搜索失败: " ++ errorDetailOrMessage e)])

end BusinessKnowledgePage

/-! ## ReasoningKnowledgePage (`src/unnamed/part_001`; identical in
shape to the business page, over the reasoning API). -/

namespace ReasoningKnowledgePage

/-- `handleSearch('task' | 'step')`. -/
inductive SearchAxis where
  | task | step

/-- Validated search-form values. -/
structure SearchValues where
  query_text : String
  top_k : Option ℚ
  threshold : Option ℚ

/-- The `useState` cells of `ReasoningKnowledgePage`. -/
structure RKState where
  knowledgeList : List ReasoningKnowledge
  loading : Bool
  modalVisible : Bool
  editingItem : Option ReasoningKnowledge
  searchResults : List ReasoningKnowledge
  searchLoading : Bool

/-- `fetchKnowledge`. -/
def fetchKnowledge (s : RKState) (r : ApiResult (List ReasoningKnowledge)) :
    RKState × List Effect :=
  let s1 := { s with loading := true }
  match r with
  | .ok data =>
    ({ s1 with knowledgeList := data, loading := false },
     [.request (reasoningKnowledgeApi.list 0 100)])
  | .err e =>
    ({ s1 with loading := false },
     [.request (reasoningKnowledgeApi.list 0 100),
      .msgError ("获取知识列表失败: " ++ errorDetailOrMessage e)])

/-- `handleSubmit`. -/
def handleSubmit (s : RKState) (vals : Option RKCreate) (r : ApiResult Unit) :
    RKState × List Effect :=
  match vals with
  | none => (s, [])
  | some values =>
    let req := match s.editingItem with
      | some item =>
        reasoningKnowledgeApi.update item.id
          { task_text := some values.task_text,
            step_text := some values.step_text }
      | none => reasoningKnowledgeApi.create values
    match r with
    | .ok _ =>
      ({ s with modalVisible := false },
       [.request req,
        .msgSuccess (match s.editingItem with
          | some _ => "更新成功"
          | none => "创建成功"),
        .refetch 0])
    | .err e =>
      (s, [.request req, .msgError ("操作失败: " ++ errorDetailOrMessage e)])

/-- `handleDelete` (after the `Popconfirm` confirmation). -/
def handleDelete (id : Int) (r : ApiResult Unit) : List Effect :=
  match r with
  | .ok _ =>
    [.request (reasoningKnowledgeApi.delete id), .msgSuccess "删除成功", .refetch 0]
  | .err e =>
    [.request (reasoningKnowledgeApi.delete id),
     .msgError ("删除失败: " ++ errorDetailOrMessage e)]

/-- `handleSearch`. -/
def handleSearch (s : RKState) (axis : SearchAxis) (vals : Option SearchValues)
    (r : ApiResult (List ReasoningKnowledge)) : RKState × List Effect :=
  match vals with
  | none => ({ s with searchLoading := false }, [])
  | some v =>
    let s1 := { s with searchLoading := true }
    let req := match axis with
      | .task =>
        reasoningKnowledgeApi.searchByTask v.query_text
          (jsOrNum v.top_k 5) (jsOrNum v.threshold 0)
      | .step =>
        reasoningKnowledgeApi.searchByStep v.query_text
          (jsOrNum v.top_k 5) (jsOrNum v.threshold 0)
    match r with
    | .ok data =>
      ({ s1 with searchResults := data, searchLoading := false }, [.request req])
    | .err e =>
      ({ s1 with searchLoading := false },
       [.request req, .msgError ("搜索失败: " ++ errorDetailOrMessage e)])

end ReasoningKnowledgePage

/-! ## Rendering helpers used by the table columns and the detail view -/

/-- Truthiness of a JavaScript value obtained from `JSON.parse`:
`null`, `false`, `0` and `""` are falsy; arrays and objects are
truthy. -/
def JsonVal.truthy : JsonVal → Bool
  | .null => false
  | .bool b => b
  | .num q => if q = 0 then false else true
  | .str s => if s = "" then false else true
  | .arr _ => true
  | .obj _ => true

/-- The member an object exposes for a key: `JSON.parse` lets a later
duplicate member overwrite an earlier one, so property access yields
the last pair with that key. -/
def lookupLast (kvs : List (String × JsonVal)) (k : String) : Option JsonVal :=
  ((kvs.filter (fun p => p.1 = k)).getLast?).map (fun p => p.2)

/-- JavaScript property access `v.summary`: an object yields its
member or `undefined` (`none`); `null` throws a `TypeError`
(`Except.error`); any other value yields `undefined`. -/
def getSummary : JsonVal → Except Unit (Option JsonVal)
  | .null => .error ()
  | .obj kvs => .ok (lookupLast kvs "summary")
  | _ => .ok none

/-- `Number.prototype.toFixed(2)` on a nonnegative rational: the
integer `n` for which `n / 100` is closest to `x`, the larger on a
tie, printed with exactly two digits after the point. -/
def toFixed2Abs (x : ℚ) : String :=
  let n : ℕ := (⌊x * 100 + 1 / 2⌋).toNat
  toString (n / 100) ++ "." ++
    (if n % 100 < 10 then "0" ++ toString (n % 100) else toString (n % 100))

/-- `Number.prototype.toFixed(2)`: ES2023 splits off the sign and
rounds the magnitude. -/
def toFixed2 (x : ℚ) : String :=
  if x < 0 then "-" ++ toFixed2Abs (-x) else toFixed2Abs x

namespace TasksPage

/-- Color of an antd `Tag`. -/
inductive TagColor where
  | default | success | error
deriving DecidableEq

/-- An antd `Tag` as rendered by the boolean columns. -/
structure Tag where
  color : TagColor
  text : String
deriving DecidableEq

/-- The `all_success` column render:
`allSuccess === null || allSuccess === undefined` gives the gray
"未知" tag, `true` the green "是" tag, `false` the red "否" tag. -/
def renderAllSuccessCol (allSuccess : Option Bool) : Tag :=
  match allSuccess with
  | none => { color := .default, text := "未知" }
  | some b => if b then { color := .success, text := "是" }
              else { color := .error, text := "否" }

/-- The `can_execute` column render (same conditional as
`renderAllSuccessCol`, written separately in the source). -/
def renderCanExecuteCol (canExecute : Option Bool) : Tag :=
  match canExecute with
  | none => { color := .default, text := "未知" }
  | some b => if b then { color := .success, text := "是" }
              else { color := .error, text := "否" }

/-- The detail modal's `全部成功` text for `selectedTask.all_success`. -/
def detailAllSuccessText (allSuccess : Option Bool) : String :=
  match allSuccess with
  | none => "未知"
  | some b => if b then "是" else "否"

/-- The detail modal's `可执行` text for `selectedTask.can_execute`. -/
def detailCanExecuteText (canExecute : Option Bool) : String :=
  match canExecute with
  | none => "未知"
  | some b => if b then "是" else "否"

/-- The `final_result` column render, returning the JavaScript value
placed in the cell (always a string except when a truthy non-string
`summary` member is returned as-is):

    if (!text) return '-'
    try {
      const parsed = JSON.parse(text)
      return parsed.summary || text.substring(0, 50) + '...'
    } catch {
      return text.length > 50 ? text.substring(0, 50) + '...' : text
    }

Note the `catch` also receives the `TypeError` thrown by
`parsed.summary` when the text parses to JSON `null`. -/
def renderFinalResult (text : Option String) : JsonVal :=
  match text with
  | none => .str "-"
  | some t =>
    if t = "" then .str "-"
    else
      match jsonParse t with
      | some v =>
        (match getSummary v with
         | .error _ =>
           if t.length > 50 then .str (t.take 50 ++ "...") else .str t
         | .ok summary =>
           match summary with
           | some sv => if sv.truthy then sv else .str (t.take 50 ++ "...")
           | none => .str (t.take 50 ++ "..."))
      | none =>
        if t.length > 50 then .str (t.take 50 ++ "...") else .str t

end TasksPage

namespace BusinessKnowledgePage

/-- The `相似度` column:
`similarity !== undefined ? (similarity * 100).toFixed(2) + '%' : '-'`. -/
def renderSimilarity (similarity : Option ℚ) : String :=
  match similarity with
  | some q => toFixed2 (q * 100) ++ "%"
  | none => "-"

end BusinessKnowledgePage

namespace ReasoningKnowledgePage

/-- The `相似度` column of the reasoning page (textually identical to
the business page's). -/
def renderSimilarity (similarity : Option ℚ) : String :=
  match similarity with
  | some q => toFixed2 (q * 100) ++ "%"
  | none => "-"

end ReasoningKnowledgePage

/-! ## Theorems for the claims -/

/-- C6: every request issued by any function of the three feature API
modules (`taskApi`, `businessKnowledgeApi`, `reasoningKnowledgeApi`) is
constructed through the single shared client instance, whose
configuration is base path `/api` and a fixed 30000 ms timeout; no
function of the modules builds a request with any other
configuration. -/
theorem C6_shared_client :
    api.baseURL = "/api" ∧ api.timeout = 30000 ∧
    (∀ t tid, (taskApi.runTask t tid).config = api) ∧
    (∀ tid, (taskApi.getTask tid).config = api) ∧
    (∀ sk l, (taskApi.getTasks sk l).config = api) ∧
    (∀ tid, (taskApi.deleteTask tid).config = api) ∧
    (∀ d, (businessKnowledgeApi.create d).config = api) ∧
    (∀ i, (businessKnowledgeApi.get i).config = api) ∧
    (∀ sk l, (businessKnowledgeApi.list sk l).config = api) ∧
    (∀ i d, (businessKnowledgeApi.update i d).config = api) ∧
    (∀ i, (businessKnowledgeApi.delete i).config = api) ∧
    (∀ q k th, (businessKnowledgeApi.searchByQuestion q k th).config = api) ∧
    (∀ q k th, (businessKnowledgeApi.searchByAnswer q k th).config = api) ∧
    businessKnowledgeApi.count.config = api ∧
    (∀ d, (reasoningKnowledgeApi.create d).config = api) ∧
    (∀ i, (reasoningKnowledgeApi.get i).config = api) ∧
    (∀ sk l, (reasoningKnowledgeApi.list sk l).config = api) ∧
    (∀ i d, (reasoningKnowledgeApi.update i d).config = api) ∧
    (∀ i, (reasoningKnowledgeApi.delete i).config = api) ∧
    (∀ q k th, (reasoningKnowledgeApi.searchByTask q k th).config = api) ∧
    (∀ q k th, (reasoningKnowledgeApi.searchByStep q k th).config = api) ∧
    reasoningKnowledgeApi.count.config = api :=
  ⟨rfl, rfl, fun _ _ => rfl, fun _ => rfl, fun _ _ => rfl, fun _ => rfl,
   fun _ => rfl, fun _ => rfl, fun _ _ => rfl, fun _ _ => rfl, fun _ => rfl,
   fun _ _ _ => rfl, fun _ _ _ => rfl, rfl,
   fun _ => rfl, fun _ => rfl, fun _ _ => rfl, fun _ _ => rfl, fun _ => rfl,
   fun _ _ _ => rfl, fun _ _ _ => rfl, rfl⟩

/-- C7: each similarity-search function sends the body
`{query_text, top_k, threshold}` built from its arguments unmodified to
the endpoint of its field axis, and each list function passes `skip`
and `limit` through as query parameters unmodified. -/
theorem C7_parameter_passthrough :
    (∀ q k th, (businessKnowledgeApi.searchByQuestion q k th).url =
        "/business-knowledge/search/question" ∧
      (businessKnowledgeApi.searchByQuestion q k th).body =
        [("query_text", .str q), ("top_k", .num k), ("threshold", .num th)]) ∧
    (∀ q k th, (businessKnowledgeApi.searchByAnswer q k th).url =
        "/business-knowledge/search/answer" ∧
      (businessKnowledgeApi.searchByAnswer q k th).body =
        [("query_text", .str q), ("top_k", .num k), ("threshold", .num th)]) ∧
    (∀ q k th, (reasoningKnowledgeApi.searchByTask q k th).url =
        "/reasoning-knowledge/search/task" ∧
      (reasoningKnowledgeApi.searchByTask q k th).body =
        [("query_text", .str q), ("top_k", .num k), ("threshold", .num th)]) ∧
    (∀ q k th, (reasoningKnowledgeApi.searchByStep q k th).url =
        "/reasoning-knowledge/search/step" ∧
      (reasoningKnowledgeApi.searchByStep q k th).body =
        [("query_text", .str q), ("top_k", .num k), ("threshold", .num th)]) ∧
    (∀ sk l, (businessKnowledgeApi.list sk l).params =
      [("skip", .num sk), ("limit", .num l)]) ∧
    (∀ sk l, (reasoningKnowledgeApi.list sk l).params =
      [("skip", .num sk), ("limit", .num l)]) ∧
    (∀ sk l, (taskApi.getTasks sk l).params =
      [("skip", .num sk), ("limit", .num l)]) :=
  ⟨fun _ _ _ => ⟨rfl, rfl⟩, fun _ _ _ => ⟨rfl, rfl⟩, fun _ _ _ => ⟨rfl, rfl⟩,
   fun _ _ _ => ⟨rfl, rfl⟩, fun _ _ => rfl, fun _ _ => rfl, fun _ _ => rfl⟩

/-- C8: the `all_success` and `can_execute` columns and the detail view
render the "unknown" presentation exactly when the field is
null/undefined, the affirmative presentation exactly when it is `true`,
and the negative presentation exactly when it is `false` — each render
is a pure function of the backend-supplied field alone. -/
theorem C8_tristate_render (v : Option Bool) :
    (TasksPage.renderAllSuccessCol v = { color := .default, text := "未知" } ↔ v = none) ∧
    (TasksPage.renderAllSuccessCol v = { color := .success, text := "是" } ↔ v = some true) ∧
    (TasksPage.renderAllSuccessCol v = { color := .error, text := "否" } ↔ v = some false) ∧
    (TasksPage.renderCanExecuteCol v = { color := .default, text := "未知" } ↔ v = none) ∧
    (TasksPage.renderCanExecuteCol v = { color := .success, text := "是" } ↔ v = some true) ∧
    (TasksPage.renderCanExecuteCol v = { color := .error, text := "否" } ↔ v = some false) ∧
    (TasksPage.detailAllSuccessText v = "未知" ↔ v = none) ∧
    (TasksPage.detailAllSuccessText v = "是" ↔ v = some true) ∧
    (TasksPage.detailAllSuccessText v = "否" ↔ v = some false) ∧
    (TasksPage.detailCanExecuteText v = "未知" ↔ v = none) ∧
    (TasksPage.detailCanExecuteText v = "是" ↔ v = some true) ∧
    (TasksPage.detailCanExecuteText v = "否" ↔ v = some false) := by
  cases v with
  | none => decide
  | some b => cases b <;> decide

/-- C3: a record with a defined similarity field renders
`(similarity * 100).toFixed(2) + '%'` — in particular 0.873 renders
exactly as "87.30%" — and a record with an undefined similarity field
renders "-", on both knowledge pages. -/
theorem C3_similarity_render :
    (∀ q, BusinessKnowledgePage.renderSimilarity (some q) = toFixed2 (q * 100) ++ "%") ∧
    BusinessKnowledgePage.renderSimilarity (some (873 / 1000)) = "87.30%" ∧
    BusinessKnowledgePage.renderSimilarity none = "-" ∧
    (∀ q, ReasoningKnowledgePage.renderSimilarity (some q) = toFixed2 (q * 100) ++ "%") ∧
    ReasoningKnowledgePage.renderSimilarity (some (873 / 1000)) = "87.30%" ∧
    ReasoningKnowledgePage.renderSimilarity none = "-" := by
  have h : toFixed2 ((873 / 1000 : ℚ) * 100) = "87.30" := by
    norm_num [toFixed2, toFixed2Abs]
    rfl
  refine ⟨fun q => rfl, ?_, rfl, fun q => rfl, ?_, rfl⟩ <;>
    · show toFixed2 ((873 / 1000 : ℚ) * 100) ++ "%" = "87.30%"
      rw [h]
      rfl

/-- C5: a confirmed deletion that succeeds issues exactly one delete
request followed by exactly one list re-fetch, in that order, on each
of the three pages. -/
theorem C5_delete_then_refresh (taskId bkId rkId : Int) :
    TasksPage.tasksHandleDelete taskId (.ok ()) =
      [.request (taskApi.deleteTask taskId), .msgSuccess "删除成功", .refetch 0] ∧
    requestsOf (TasksPage.tasksHandleDelete taskId (.ok ())) = [taskApi.deleteTask taskId] ∧
    refetchesOf (TasksPage.tasksHandleDelete taskId (.ok ())) = [0] ∧
    BusinessKnowledgePage.handleDelete bkId (.ok ()) =
      [.request (businessKnowledgeApi.delete bkId), .msgSuccess "删除成功", .refetch 0] ∧
    requestsOf (BusinessKnowledgePage.handleDelete bkId (.ok ())) =
      [businessKnowledgeApi.delete bkId] ∧
    refetchesOf (BusinessKnowledgePage.handleDelete bkId (.ok ())) = [0] ∧
    ReasoningKnowledgePage.handleDelete rkId (.ok ()) =
      [.request (reasoningKnowledgeApi.delete rkId), .msgSuccess "删除成功", .refetch 0] ∧
    requestsOf (ReasoningKnowledgePage.handleDelete rkId (.ok ())) =
      [reasoningKnowledgeApi.delete rkId] ∧
    refetchesOf (ReasoningKnowledgePage.handleDelete rkId (.ok ())) = [0] :=
  ⟨rfl, rfl, rfl, rfl, rfl, rfl, rfl, rfl, rfl⟩

/-- C9: a failed list fetch leaves the displayed list untouched — the
resulting state is the old state with only the loading flag cleared,
and the error path's only effects are the failed request and the error
notification. -/
theorem C9_fetch_failure_preserves_list :
    (∀ (s : TasksPage.TasksState) e,
      (TasksPage.fetchTasks s (.err e)).1 = { s with loading := false } ∧
      (TasksPage.fetchTasks s (.err e)).1.tasks = s.tasks ∧
      (TasksPage.fetchTasks s (.err e)).2 =
        [.request (taskApi.getTasks 0 100),
         .msgError ("获取任务列表失败: " ++ errorDetailOrMessage e)]) ∧
    (∀ (s : BusinessKnowledgePage.BKState) e,
      (BusinessKnowledgePage.fetchKnowledge s (.err e)).1 = { s with loading := false } ∧
      (BusinessKnowledgePage.fetchKnowledge s (.err e)).1.knowledgeList = s.knowledgeList ∧
      (BusinessKnowledgePage.fetchKnowledge s (.err e)).2 =
        [.request (businessKnowledgeApi.list 0 100),
         .msgError ("获取知识列表失败: " ++ errorDetailOrMessage e)]) ∧
    (∀ (s : ReasoningKnowledgePage.RKState) e,
      (ReasoningKnowledgePage.fetchKnowledge s (.err e)).1 = { s with loading := false } ∧
      (ReasoningKnowledgePage.fetchKnowledge s (.err e)).1.knowledgeList = s.knowledgeList ∧
      (ReasoningKnowledgePage.fetchKnowledge s (.err e)).2 =
        [.request (reasoningKnowledgeApi.list 0 100),
         .msgError ("获取知识列表失败: " ++ errorDetailOrMessage e)]) :=
  ⟨fun _ _ => ⟨rfl, rfl, rfl⟩, fun _ _ => ⟨rfl, rfl, rfl⟩, fun _ _ => ⟨rfl, rfl, rfl⟩⟩

/-- C2: every successful mutation is followed by a full re-fetch of the
affected list — scheduled behind a fixed 1000 ms timer for a task run,
and called directly (delay 0) for knowledge create/update, knowledge
delete and task delete. -/
theorem C2_refetch_after_mutation :
    (∀ s v, ∃ req msg, (BusinessKnowledgePage.handleSubmit s (some v) (.ok ())).2 =
      [.request req, .msgSuccess msg, .refetch 0]) ∧
    (∀ s v, ∃ req msg, (ReasoningKnowledgePage.handleSubmit s (some v) (.ok ())).2 =
      [.request req, .msgSuccess msg, .refetch 0]) ∧
    (∀ i, BusinessKnowledgePage.handleDelete i (.ok ()) =
      [.request (businessKnowledgeApi.delete i), .msgSuccess "删除成功", .refetch 0]) ∧
    (∀ i, ReasoningKnowledgePage.handleDelete i (.ok ()) =
      [.request (reasoningKnowledgeApi.delete i), .msgSuccess "删除成功", .refetch 0]) ∧
    (∀ i, TasksPage.tasksHandleDelete i (.ok ()) =
      [.request (taskApi.deleteTask i), .msgSuccess "删除成功", .refetch 0]) ∧
    (∀ s tid, jsTrim s.taskInput ≠ "" →
      (TasksPage.handleRunTask s (.ok tid)).2 =
        [.request (taskApi.runTask (jsTrim s.taskInput) none),
         .msgSuccess ("任务已添加到执行队列，ID: " ++ toString tid),
         .refetch 1000]) := by
  refine ⟨fun s v => ⟨_, _, rfl⟩, fun s v => ⟨_, _, rfl⟩,
          fun i => rfl, fun i => rfl, fun i => rfl, fun s tid h => ?_⟩
  simp [TasksPage.handleRunTask, h]

/-- Witness for C2 at a concrete page state and task id. -/
theorem C2_refetch_after_mutation_witness :
    (TasksPage.handleRunTask ⟨[], false, true, false, none, "check login"⟩ (.ok 7)).2 =
      [.request (taskApi.runTask "check login" none),
       .msgSuccess "任务已添加到执行队列，ID: 7",
       .refetch 1000] := by
  have h := C2_refetch_after_mutation.2.2.2.2.2
    ⟨[], false, true, false, none, "check login"⟩ 7 (by decide)
  exact h.trans (by rfl)

/-- C4: a task submission whose trimmed input is empty shows the
warning, issues no request and leaves the page state untouched; a
submission with a nonempty trimmed input issues exactly one task-run
request carrying the trimmed text, whatever the outcome. -/
theorem C4_empty_task_guard :
    (∀ s r, jsTrim s.taskInput = "" →
      TasksPage.handleRunTask s r = (s, [.msgWarning "请输入任务描述"])) ∧
    (∀ s r, jsTrim s.taskInput ≠ "" →
      requestsOf (TasksPage.handleRunTask s r).2 =
        [taskApi.runTask (jsTrim s.taskInput) none]) := by
  constructor
  · intro s r h
    simp [TasksPage.handleRunTask, h]
  · intro s r h
    cases r <;> simp [TasksPage.handleRunTask, h, requestsOf]

/-- Witness for C4: the guard at whitespace-only input, and the single
trimmed run request at a real input. -/
theorem C4_empty_task_guard_witness :
    TasksPage.handleRunTask ⟨[], false, true, false, none, "   "⟩ (.ok 1) =
      (⟨[], false, true, false, none, "   "⟩, [.msgWarning "请输入任务描述"]) ∧
    requestsOf (TasksPage.handleRunTask ⟨[], false, true, false, none, " deploy "⟩
        (.ok 1)).2 = [taskApi.runTask "deploy" none] := by
  constructor
  · exact C4_empty_task_guard.1 ⟨[], false, true, false, none, "   "⟩ (.ok 1) (by decide)
  · have h := C4_empty_task_guard.2 ⟨[], false, true, false, none, " deploy "⟩
      (.ok 1) (by decide)
    exact h.trans (by rfl)

/-- Stated from the claim's words, for comparison with the code's
`errorDetailOrMessage`: the notification text the claim predicts — the
label followed by the backend detail field whenever that field is
present, and the fallback message only when it is absent. -/
def claimedErrorText (label : String) (e : ApiError) : String :=
  label ++ (match e.detail with
    | some d => d
    | none => e.message)

/-- C1 counterexample: with a present but empty backend detail field
(`detail = ""`), the code's `detail || message` falls through to
`error.message`, so the shown notification is built from the fallback
message even though the detail field is present — not what the claim
predicts. -/
theorem C1_counterexample :
    (TasksPage.fetchTasks ⟨[], false, false, false, none, ""⟩
        (.err { detail := some "", message := "Network Error" })).2 =
      [.request (taskApi.getTasks 0 100), .msgError "获取任务列表失败: Network Error"] ∧
    claimedErrorText "获取任务列表失败: "
        { detail := some "", message := "Network Error" } = "获取任务列表失败: " ∧
    ("获取任务列表失败: Network Error" : String) ≠ "获取任务列表失败: " :=
  ⟨rfl, rfl, by decide⟩

/-- C1 (amended): for every failed backend call made by a page
handler, the notification is the handler's label followed by the
backend detail field when that field is present *and nonempty*, and by
the error's own message otherwise; the failure trace contains exactly
the failed request and that one notification — no retry request and no
re-fetch. -/
theorem C1_error_notifications :
    (∀ e d, e.detail = some d → d ≠ "" → errorDetailOrMessage e = d) ∧
    (∀ e, e.detail = none → errorDetailOrMessage e = e.message) ∧
    (∀ e, e.detail = some "" → errorDetailOrMessage e = e.message) ∧
    (∀ s e, (TasksPage.fetchTasks s (.err e)).2 =
      [.request (taskApi.getTasks 0 100),
       .msgError ("获取任务列表失败: " ++ errorDetailOrMessage e)]) ∧
    (∀ s e, jsTrim s.taskInput ≠ "" → (TasksPage.handleRunTask s (.err e)).2 =
      [.request (taskApi.runTask (jsTrim s.taskInput) none),
       .msgError ("启动任务失败: " ++ errorDetailOrMessage e)]) ∧
    (∀ s tid e, (TasksPage.handleViewDetail s tid (.err e)).2 =
      [.request (taskApi.getTask tid),
       .msgError ("获取任务详情失败: " ++ errorDetailOrMessage e)]) ∧
    (∀ tid e, TasksPage.tasksHandleDelete tid (.err e) =
      [.request (taskApi.deleteTask tid),
       .msgError ("删除失败: " ++ errorDetailOrMessage e)]) ∧
    (∀ s e, (BusinessKnowledgePage.fetchKnowledge s (.err e)).2 =
      [.request (businessKnowledgeApi.list 0 100),
       .msgError ("获取知识列表失败: " ++ errorDetailOrMessage e)]) ∧
    (∀ s v e, ∃ req, (BusinessKnowledgePage.handleSubmit s (some v) (.err e)).2 =
      [.request req, .msgError ("操作失败: " ++ errorDetailOrMessage e)]) ∧
    (∀ i e, BusinessKnowledgePage.handleDelete i (.err e) =
      [.request (businessKnowledgeApi.delete i),
       .msgError ("删除失败: " ++ errorDetailOrMessage e)]) ∧
    (∀ s a v e, ∃ req, (BusinessKnowledgePage.handleSearch s a (some v) (.err e)).2 =
      [.request req, .msgError ("搜索失败: " ++ errorDetailOrMessage e)]) ∧
    (∀ s e, (ReasoningKnowledgePage.fetchKnowledge s (.err e)).2 =
      [.request (reasoningKnowledgeApi.list 0 100),
       .msgError ("获取知识列表失败: " ++ errorDetailOrMessage e)]) ∧
    (∀ s v e, ∃ req, (ReasoningKnowledgePage.handleSubmit s (some v) (.err e)).2 =
      [.request req, .msgError ("操作失败: " ++ errorDetailOrMessage e)]) ∧
    (∀ i e, ReasoningKnowledgePage.handleDelete i (.err e) =
      [.request (reasoningKnowledgeApi.delete i),
       .msgError ("删除失败: " ++ errorDetailOrMessage e)]) ∧
    (∀ s a v e, ∃ req, (ReasoningKnowledgePage.handleSearch s a (some v) (.err e)).2 =
      [.request req, .msgError ("搜索失败: " ++ errorDetailOrMessage e)]) := by
  refine ⟨?_, ?_, ?_, fun s e => rfl, ?_, fun s tid e => rfl, fun tid e => rfl,
          fun s e => rfl, fun s v e => ⟨_, rfl⟩, fun i e => rfl,
          fun s a v e => ⟨_, rfl⟩, fun s e => rfl, fun s v e => ⟨_, rfl⟩,
          fun i e => rfl, fun s a v e => ⟨_, rfl⟩⟩
  · intro e d hd hne
    simp [errorDetailOrMessage, hd, hne]
  · intro e hd
    simp [errorDetailOrMessage, hd]
  · intro e hd
    simp [errorDetailOrMessage, hd]
  · intro s e h
    simp [TasksPage.handleRunTask, h]

/-- Witness for C1 at concrete errors and a concrete page state. -/
theorem C1_error_notifications_witness :
    errorDetailOrMessage
      { detail := some "任务不存在", message := "Request failed with status code 404" } =
      "任务不存在" ∧
    errorDetailOrMessage { detail := none, message := "timeout of 30000ms exceeded" } =
      "timeout of 30000ms exceeded" ∧
    (TasksPage.handleRunTask ⟨[], false, true, false, none, "t1"⟩
        (.err { detail := none, message := "Network Error" })).2 =
      [.request (taskApi.runTask "t1" none), .msgError "启动任务失败: Network Error"] := by
  refine ⟨C1_error_notifications.1 _ "任务不存在" rfl (by decide),
          C1_error_notifications.2.1 _ rfl, ?_⟩
  have h := C1_error_notifications.2.2.2.2.1
    ⟨[], false, true, false, none, "t1"⟩
    { detail := none, message := "Network Error" } (by decide)
  exact h.trans (by rfl)

/-- Stated from the claim's words, for comparison with the code's
`renderFinalResult`: for a string that parses as JSON, render the
parsed object's truthy `summary` member, else the first 50 characters
plus "..."; for a string that does not parse, render it unchanged up
to length 50 and truncated with "..." beyond; render "-" for an empty
or absent value. -/
def claimedFinalResult (text : Option String) : JsonVal :=
  match text with
  | none => .str "-"
  | some t =>
    if t = "" then .str "-"
    else
      match jsonParse t with
      | some v =>
        (match (match v with
                | .obj kvs => lookupLast kvs "summary"
                | _ => none) with
         | some sv => if sv.truthy then sv else .str (t.take 50 ++ "...")
         | none => .str (t.take 50 ++ "..."))
      | none =>
        if t.length > 50 then .str (t.take 50 ++ "...") else .str t

set_option maxRecDepth 4096 in
/-- C10 counterexample: the string "null" is non-empty and parses as
JSON, so the claim predicts the truncation-with-ellipsis rendering
"null...", but in the code `parsed.summary` throws a `TypeError` on
the parsed `null`, the `catch` branch runs, and the cell shows "null"
unchanged. -/
theorem C10_counterexample :
    TasksPage.renderFinalResult (some "null") = .str "null" ∧
    claimedFinalResult (some "null") = .str "null..." ∧
    JsonVal.str "null" ≠ JsonVal.str "null..." :=
  ⟨rfl, rfl, fun h => absurd (JsonVal.str.inj h) (by decide)⟩

/-- C10 (amended): an empty or absent `final_result` renders "-"; a
non-empty string parsing as JSON *to a value other than `null`*
renders its truthy `summary` member as-is, and otherwise the first 50
characters plus "..." (even at length ≤ 50); a string that fails to
parse — or parses to JSON `null`, whose `summary` access throws into
the same `catch` — renders unchanged at length ≤ 50 and truncated to
50 plus "..." beyond. -/
theorem C10_final_result_render :
    TasksPage.renderFinalResult none = JsonVal.str "-" ∧
    TasksPage.renderFinalResult (some "") = .str "-" ∧
    (∀ t v sv, t ≠ "" → jsonParse t = some v → getSummary v = .ok (some sv) →
      sv.truthy = true → TasksPage.renderFinalResult (some t) = sv) ∧
    (∀ t v sv, t ≠ "" → jsonParse t = some v → getSummary v = .ok (some sv) →
      sv.truthy = false →
      TasksPage.renderFinalResult (some t) = .str (t.take 50 ++ "...")) ∧
    (∀ t v, t ≠ "" → jsonParse t = some v → getSummary v = .ok none →
      TasksPage.renderFinalResult (some t) = .str (t.take 50 ++ "...")) ∧
    (∀ t, t ≠ "" → (jsonParse t = none ∨ jsonParse t = some .null) → t.length ≤ 50 →
      TasksPage.renderFinalResult (some t) = .str t) ∧
    (∀ t, t ≠ "" → (jsonParse t = none ∨ jsonParse t = some .null) → t.length > 50 →
      TasksPage.renderFinalResult (some t) = .str (t.take 50 ++ "...")) := by
  refine ⟨rfl, rfl, ?_, ?_, ?_, ?_, ?_⟩
  · intro t v sv hne hp hs ht
    simp [TasksPage.renderFinalResult, hne, hp, hs, ht]
  · intro t v sv hne hp hs ht
    simp [TasksPage.renderFinalResult, hne, hp, hs, ht]
  · intro t v hne hp hs
    simp [TasksPage.renderFinalResult, hne, hp, hs]
  · intro t hne hp hlen
    rcases hp with hp | hp
    · simp [TasksPage.renderFinalResult, hne, hp, Nat.not_lt.mpr hlen]
    · simp [TasksPage.renderFinalResult, hne, hp, getSummary, Nat.not_lt.mpr hlen]
  · intro t hne hp hlen
    rcases hp with hp | hp
    · simp [TasksPage.renderFinalResult, hne, hp, hlen]
    · simp [TasksPage.renderFinalResult, hne, hp, getSummary, hlen]

/-- Witness for C10 at a concrete JSON result with a truthy summary. -/
theorem C10_final_result_render_witness :
    TasksPage.renderFinalResult (some "\x7b\"summary\":\"done\"\x7d") = .str "done" :=
  C10_final_result_render.2.2.1 "\x7b\"summary\":\"done\"\x7d"
    (.obj [("summary", .str "done")]) (.str "done") (by decide) rfl rfl rfl
